import Mathlib

/-!
Shallow embedding of the tier/payment-verification core of the SHEGER ET bot
(src/bot.py).  Rows of the PostgreSQL tables that the workflow touches are
modelled as Lean structures; the database is a record of row lists; every SQL
statement of the Python source becomes a pure function on that record.  Money
(DECIMAL / Python float literals such as 0.10) is modelled as the rationals;
timestamps are integers (seconds), with CURRENT_TIMESTAMP / datetime.now()
passed in as an explicit `now` argument; timedelta(days=30) is 30 * 86400 and
timedelta(hours=24) is 24 * 3600.  SQL NULL and Python None become Option;
Python truthiness tests (x or y, if x:) are modelled by explicit tests against
none, the empty string and zero, exactly where the source performs them.
-/

/-- Row of the users table (src/bot.py lines 96 to 124), restricted to the
columns the tier/payment workflow reads or writes.  Columns default to
plan = basic, tier = basic, balance = 0, counters = 0, nullable timestamps. -/
structure UserRow where
  user_id : Int
  plan : String
  tier : String
  tier_expires_at : Option Int
  balance : ℚ
  total_spent : ℚ
  total_earned : ℚ
  referral_code : String
  referred_by : Option Int
  monthly_transactions : Int
  monthly_listings : Int
  last_payment : Option Int
  last_active : Int
  deriving Repr, DecidableEq

/-- Row of the payments table (src/bot.py lines 127 to 146). -/
structure PaymentRow where
  id : Int
  user_id : Int
  plan : String
  amount : ℚ
  status : String
  reference_code : String
  verified_by : Option Int
  created_at : Int
  verified_at : Option Int
  expires_at : Option Int
  campaign_id : Option String
  deriving Repr, DecidableEq

/-- Row of the campaigns table (src/bot.py lines 149 to 165).  The column
named type in SQL is called ctype here. -/
structure CampaignRow where
  id : Int
  code : String
  ctype : String
  discount_percent : Option ℚ
  discount_amount : Option ℚ
  max_uses : Option Int
  used_count : Int
  starts_at : Option Int
  expires_at : Option Int
  is_active : Bool
  deriving Repr, DecidableEq

/-- Row of the tier_limits table (src/bot.py lines 192 to 201), restricted to
the columns check_limit reads. -/
structure TierLimitsRow where
  max_transactions : Int
  max_listings : Int
  deriving Repr, DecidableEq

/-- The tier_limits seed data inserted by init_database_v2
(src/bot.py lines 310 to 328). -/
def tier_limits : String → Option TierLimitsRow
  | "basic" => some ⟨10, 5⟩
  | "advanced" => some ⟨100, 50⟩
  | "pro" => some ⟨999999, 999999⟩
  | _ => none

/-- Database state: the tables the workflow touches, plus the analytics log
(event_type and user_id only) so that every INSERT of the source is a visible
state change. -/
structure DB where
  users : List UserRow
  payments : List PaymentRow
  campaigns : List CampaignRow
  analytics : List (String × Int)
  deriving Repr, DecidableEq

/-- Static tier catalog entry from TierSystem.TIERS
(src/bot.py lines 470 to 513), numeric fields only. -/
structure TierInfo where
  price : ℚ
  fee : ℚ
  commission_rate : ℚ
  withdrawal_fee : ℚ
  deriving Repr, DecidableEq

/-- TierSystem.TIERS (src/bot.py lines 470 to 513): basic has fee 2.5 and
commission_rate 10, advanced has fee 1.5 and commission_rate 12, pro has
fee 0.8 and commission_rate 15. -/
def TIERS : String → Option TierInfo
  | "basic" => some ⟨0, 5/2, 10, 1⟩
  | "advanced" => some ⟨149, 3/2, 12, 1/2⟩
  | "pro" => some ⟨999, 4/5, 15, 1/10⟩
  | _ => none

/-- SELECT ... FROM users WHERE user_id = uid (fetchone). -/
def findUser (uid : Int) (s : DB) : Option UserRow :=
  s.users.find? (fun u => u.user_id == uid)

/-- SELECT ... FROM payments WHERE id = pid (fetchone). -/
def findPayment (pid : Int) (s : DB) : Option PaymentRow :=
  s.payments.find? (fun p => p.id == pid)

/-- SELECT ... FROM campaigns WHERE id = cid (fetchone). -/
def findCampaignById (cid : Int) (s : DB) : Option CampaignRow :=
  s.campaigns.find? (fun c => c.id == cid)

/-- The pending-payment lookup of verify_payment_v2 (src/bot.py lines 767
to 771): SELECT * FROM payments WHERE user_id = uid AND status = pending
ORDER BY created_at DESC LIMIT 1.  Among the pending rows of this user the
one with the greatest created_at is returned (on a tie SQL row order is
unspecified; this model keeps the earlier row). -/
def latestPendingFor (uid : Int) (ps : List PaymentRow) : Option PaymentRow :=
  (ps.filter (fun p => p.user_id == uid && p.status == "pending")).foldl
    (fun acc p =>
      match acc with
      | none => some p
      | some q => if p.created_at > q.created_at then some p else some q)
    none

/-- The campaign lookup of verify_payment_v2 (src/bot.py lines 784 to 788):
SELECT * FROM campaigns WHERE code = c AND is_active = true AND
(expires_at IS NULL OR expires_at > CURRENT_TIMESTAMP).  Note that neither
starts_at nor max_uses / used_count appears in the WHERE clause. -/
def findActiveCampaign (code : String) (now : Int) (cs : List CampaignRow) :
    Option CampaignRow :=
  cs.find? (fun c =>
    c.code == code && c.is_active &&
      (match c.expires_at with
       | none => true
       | some e => decide (e > now)))

/-- The discount computation of verify_payment_v2 (src/bot.py lines 790 to
795).  Python truthiness: a NULL or zero discount_percent fails the first
test, a NULL or zero discount_amount fails the second.  There is no clamp
at zero anywhere in this computation. -/
def apply_campaign_discount (actual_amount : ℚ) (c : CampaignRow) : ℚ :=
  if c.ctype == "discount" &&
      (match c.discount_percent with | some q => q != 0 | none => false) then
    actual_amount - actual_amount * (c.discount_percent.getD 0 / 100)
  else if c.ctype == "discount" &&
      (match c.discount_amount with | some q => q != 0 | none => false) then
    actual_amount - c.discount_amount.getD 0
  else
    actual_amount

/-- src/bot.py line 778: actual_amount = float(amount or payment.amount).
Python or is a truthiness test, so an override of 0.0 falls back to the
recorded amount. -/
def resolve_amount (amount : Option ℚ) (recorded : ℚ) : ℚ :=
  match amount with
  | some a => if a == 0 then recorded else a
  | none => recorded

/-- src/bot.py line 777: actual_plan = plan or payment.plan.  An override
that is the empty string falls back to the recorded plan. -/
def resolve_plan (plan : Option String) (recorded : String) : String :=
  match plan with
  | some p => if p == "" then recorded else p
  | none => recorded

/-- Result of verify_payment_v2: the Python function returns a pair of a
Bool and a message string.  The failure branch carries its exact message;
the success branch is kept structured (the source formats actual_plan,
new_tier and final_amount into the message). -/
inductive VerifyResult where
  | failure (msg : String)
  | success (actual_plan new_tier : String) (final_amount : ℚ)
  deriving Repr, DecidableEq

/-- verify_payment_v2 (src/bot.py lines 763 to 886).  Returns the list of
database states after each committed statement, in program order, together
with the returned result.  The source executes every statement through
execute_query with commit = true, each on a fresh connection (src/bot.py
lines 347 to 377), so each list entry is a durably committed state: a crash
after the k-th statement leaves the database at the k-th entry.  The final
state of a completed call is the last entry (the initial state when the
list is empty).  Statement order follows the source: campaign used_count
update (only when an active campaign was found), payment update, user
update, tier_upgrade analytics insert, referrer update and referral_reward
analytics insert (only when referred_by is set and nonzero), and the final
payment_verified analytics insert. -/
def verify_payment_v2 (user_id admin_id : Int) (amount : Option ℚ)
    (plan : Option String) (now : Int) (s : DB) : List DB × VerifyResult :=
  match latestPendingFor user_id s.payments with
  | none => ([], .failure "No pending payment found")
  | some payment =>
    let payment_id := payment.id
    let actual_plan := resolve_plan plan payment.plan
    let actual_amount := resolve_amount amount payment.amount
    let campaign_code := payment.campaign_id
    let campStep : DB × ℚ × List DB :=
      match campaign_code with
      | none => (s, actual_amount, [])
      | some code =>
        if code == "" then (s, actual_amount, [])
        else
          match findActiveCampaign code now s.campaigns with
          | none => (s, actual_amount, [])
          | some campaign =>
            let final_amount := apply_campaign_discount actual_amount campaign
            let s1 : DB :=
              { s with campaigns := s.campaigns.map (fun c =>
                  if c.id == campaign.id then
                    { c with used_count := c.used_count + 1 }
                  else c) }
            (s1, final_amount, [s1])
    let s1 := campStep.1
    let final_amount := campStep.2.1
    let s2 : DB :=
      { s1 with payments := s1.payments.map (fun p =>
          if p.id == payment_id then
            { p with status := "verified", verified_by := some admin_id,
                     verified_at := some now, plan := actual_plan,
                     amount := final_amount }
          else p) }
    let new_tier :=
      if actual_plan == "advanced" then "advanced"
      else if actual_plan == "pro" then "pro"
      else "basic"
    let expiry_date := now + 30 * 86400
    let s3 : DB :=
      { s2 with users := s2.users.map (fun u =>
          if u.user_id == user_id then
            { u with plan := actual_plan, tier := new_tier,
                     tier_expires_at := some expiry_date,
                     total_spent := u.total_spent + final_amount,
                     last_payment := some now, last_active := now,
                     monthly_transactions := 0, monthly_listings := 0 }
          else u) }
    let s4 : DB := { s3 with analytics := s3.analytics ++ [("tier_upgrade", user_id)] }
    let refStep : DB × List DB :=
      match (findUser user_id s4).bind (fun u => u.referred_by) with
      | none => (s4, [])
      | some rid =>
        if rid == 0 then (s4, [])
        else
          let reward_amount := final_amount * (1/10)
          let s5 : DB :=
            { s4 with users := s4.users.map (fun u =>
                if u.user_id == rid then
                  { u with total_earned := u.total_earned + reward_amount,
                           balance := u.balance + reward_amount }
                else u) }
          let s6 : DB := { s5 with analytics := s5.analytics ++ [("referral_reward", rid)] }
          (s6, [s5, s6])
    let s6 := refStep.1
    let s7 : DB := { s6 with analytics := s6.analytics ++ [("payment_verified", user_id)] }
    (campStep.2.2 ++ [s2, s3, s4] ++ refStep.2 ++ [s7],
     .success actual_plan new_tier final_amount)

/-- The database state after a completed verify_payment_v2 call. -/
def verifyFinal (user_id admin_id : Int) (amount : Option ℚ)
    (plan : Option String) (now : Int) (s : DB) : DB :=
  (verify_payment_v2 user_id admin_id amount plan now s).1.getLastD s

/-- The database state after the first k committed statements of a call
whose commit trace is tr: a model of a crash k statements in. -/
def afterCommits (s : DB) (tr : List DB) (k : Nat) : DB :=
  (tr.take k).getLastD s

/-- create_payment_v2 (src/bot.py lines 734 to 761): inserts a pending
payment with expires_at = now + 24h and the reference code
PLAN-userid-timestamp, then logs a payment_initiated analytics event.
The SERIAL id of the new row is passed explicitly as pid. -/
def create_payment_v2 (uid : Int) (plan : String) (amount : ℚ)
    (campaign_code : Option String) (pid : Int) (now : Int) (s : DB) : DB :=
  let row : PaymentRow :=
    { id := pid, user_id := uid, plan := plan, amount := amount,
      status := "pending",
      reference_code := plan.toUpper ++ "-" ++ toString uid ++ "-" ++ toString now,
      verified_by := none, created_at := now, verified_at := none,
      expires_at := some (now + 24 * 3600), campaign_id := campaign_code }
  { s with payments := s.payments ++ [row],
           analytics := s.analytics ++ [("payment_initiated", uid)] }

/-- The expired-payment sweep of scheduled_tasks (src/bot.py lines 2546 to
2557): SELECT payments JOIN users WHERE status = pending AND
expires_at < CURRENT_TIMESTAMP, then per row UPDATE payments SET
status = expired WHERE id = row.id.  The inner join means a payment whose
user row is missing is not swept; a NULL expires_at never compares below
now in SQL, so such a row is not swept either. -/
def expire_sweep (now : Int) (s : DB) : DB :=
  { s with payments := s.payments.map (fun p =>
      if p.status == "pending" &&
          (match p.expires_at with
           | some e => decide (e < now)
           | none => false) &&
          s.users.any (fun u => u.user_id == p.user_id) then
        { p with status := "expired" }
      else p) }

/-- TierSystem.get_user_tier (src/bot.py lines 515 to 523): returns the
stored tier column, or basic when the user row is missing.  The stored
tier_expires_at column is not consulted. -/
def get_user_tier (uid : Int) (s : DB) : String :=
  match findUser uid s with
  | some u => u.tier
  | none => "basic"

/-- get_plan (src/bot.py lines 704 to 727): returns basic when the user row
is missing; otherwise, whether or not last_payment is set and within 30
days, both branches return the stored plan (or basic when the plan column
is NULL or empty).  tier_expires_at is not consulted. -/
def get_plan (uid : Int) (now : Int) (s : DB) : String :=
  match findUser uid s with
  | none => "basic"
  | some u =>
    match u.last_payment with
    | some lp =>
      if now - lp ≤ 30 * 86400 then (if u.plan == "" then "basic" else u.plan)
      else (if u.plan == "" then "basic" else u.plan)
    | none => if u.plan == "" then "basic" else u.plan

/-- Result dictionary of TierSystem.check_limit. -/
structure LimitCheck where
  allowed : Bool
  reason : Option String
  upgrade : Option String
  deriving Repr, DecidableEq

/-- TierSystem.check_limit (src/bot.py lines 525 to 555): a read-only
LEFT JOIN of the user row with tier_limits, then a greater-or-equal test of
the monthly counter against the max for the requested action.  It mutates
nothing.  When the tier of the user has no tier_limits row the Python
comparison count >= None raises a TypeError; that uncaught exception is
modelled as the none result. -/
def check_limit (uid : Int) (action : String) (s : DB) : Option LimitCheck :=
  match findUser uid s with
  | none => some { allowed := false, reason := some "User not found", upgrade := none }
  | some u =>
    let tier := if u.tier == "" then "basic" else u.tier
    let upgradeTo := if tier == "basic" then "advanced" else "pro"
    if action == "payment" then
      match tier_limits u.tier with
      | none => none
      | some tl =>
        if u.monthly_transactions ≥ tl.max_transactions then
          some { allowed := false,
                 reason := some ("Monthly transaction limit reached (" ++
                   toString u.monthly_transactions ++ "/" ++
                   toString tl.max_transactions ++ ")"),
                 upgrade := some upgradeTo }
        else some { allowed := true, reason := none, upgrade := none }
    else if action == "listing" then
      match tier_limits u.tier with
      | none => none
      | some tl =>
        if u.monthly_listings ≥ tl.max_listings then
          some { allowed := false,
                 reason := some ("Monthly listing limit reached (" ++
                   toString u.monthly_listings ++ "/" ++
                   toString tl.max_listings ++ ")"),
                 upgrade := some upgradeTo }
        else some { allowed := true, reason := none, upgrade := none }
    else some { allowed := true, reason := none, upgrade := none }

/-- TierSystem.increment_counter (src/bot.py lines 557 to 569): an
unconditional UPDATE adding one to the monthly counter of the requested
action.  No limit is checked here. -/
def increment_counter (uid : Int) (action : String) (s : DB) : DB :=
  if action == "payment" then
    { s with users := s.users.map (fun u =>
        if u.user_id == uid then
          { u with monthly_transactions := u.monthly_transactions + 1 }
        else u) }
  else if action == "listing" then
    { s with users := s.users.map (fun u =>
        if u.user_id == uid then
          { u with monthly_listings := u.monthly_listings + 1 }
        else u) }
  else s

/-- TierSystem.reset_monthly_counters (src/bot.py lines 571 to 578). -/
def reset_monthly_counters (s : DB) : DB :=
  { s with users := s.users.map (fun u =>
      { u with monthly_transactions := 0, monthly_listings := 0 }) }

/-- create_or_update_user_v2 (src/bot.py lines 590 to 632): an existing user
only has last_active touched; a new user is inserted with the column
defaults plan = basic, tier = basic (set explicitly in the INSERT),
tier_expires_at NULL, balance 0, counters 0, plus a user_join analytics
event.  The generated referral code is passed in explicitly. -/
def create_or_update_user_v2 (uid : Int) (referral_code : String) (now : Int)
    (s : DB) : DB :=
  match findUser uid s with
  | some _ =>
    { s with users := s.users.map (fun u =>
        if u.user_id == uid then { u with last_active := now } else u) }
  | none =>
    let row : UserRow :=
      { user_id := uid, plan := "basic", tier := "basic",
        tier_expires_at := none, balance := 0, total_spent := 0,
        total_earned := 0, referral_code := referral_code,
        referred_by := none, monthly_transactions := 0,
        monthly_listings := 0, last_payment := none, last_active := now }
    { s with users := s.users ++ [row],
             analytics := s.analytics ++ [("user_join", uid)] }

/-- Status column of a payment row, looked up by id. -/
def paymentStatus (pid : Int) (s : DB) : Option String :=
  (findPayment pid s).map PaymentRow.status

/-- Amount column of a payment row, looked up by id. -/
def paymentAmount (pid : Int) (s : DB) : Option ℚ :=
  (findPayment pid s).map PaymentRow.amount

/-- Tier column of a user row. -/
def userTier (uid : Int) (s : DB) : Option String :=
  (findUser uid s).map UserRow.tier

/-- tier_expires_at column of a user row. -/
def userExpiry (uid : Int) (s : DB) : Option (Option Int) :=
  (findUser uid s).map UserRow.tier_expires_at

/-- Balance column of a user row. -/
def userBalance (uid : Int) (s : DB) : Option ℚ :=
  (findUser uid s).map UserRow.balance

/-- total_earned column of a user row. -/
def userEarned (uid : Int) (s : DB) : Option ℚ :=
  (findUser uid s).map UserRow.total_earned

/-- monthly_transactions column of a user row. -/
def userTransactions (uid : Int) (s : DB) : Option Int :=
  (findUser uid s).map UserRow.monthly_transactions

/-- used_count column of a campaign row, looked up by id. -/
def campaignUses (cid : Int) (s : DB) : Option Int :=
  (findCampaignById cid s).map CampaignRow.used_count

/-- Plan reported by a successful verify result. -/
def resultPlan : VerifyResult → Option String
  | .success p _ _ => some p
  | .failure _ => none

/-- Final amount reported by a successful verify result. -/
def resultAmount : VerifyResult → Option ℚ
  | .success _ _ a => some a
  | .failure _ => none

/-! Concrete scenario states used by the claims below.  User 1 is a
referrer on the basic tier; user 2 was referred by user 1 and has one
pending advanced-tier payment of 149 ETB, created at time 500 with the
24-hour expiry 86900, and no campaign code. -/

/-- Referrer account: user 1, basic tier, empty wallet. -/
def userA : UserRow :=
  { user_id := 1, plan := "basic", tier := "basic", tier_expires_at := none,
    balance := 0, total_spent := 0, total_earned := 0, referral_code := "R1",
    referred_by := none, monthly_transactions := 0, monthly_listings := 0,
    last_payment := none, last_active := 0 }

/-- Referred account: user 2, referred_by user 1. -/
def userB : UserRow :=
  { userA with user_id := 2, referral_code := "R2", referred_by := some 1 }

/-- Pending advanced-tier payment of user 2: 149 ETB, no campaign. -/
def payAdv : PaymentRow :=
  { id := 10, user_id := 2, plan := "advanced", amount := 149,
    status := "pending", reference_code := "ADVANCED-2-500",
    verified_by := none, created_at := 500, verified_at := none,
    expires_at := some 86900, campaign_id := none }

/-- Base referral scenario database. -/
def dbRef : DB :=
  { users := [userA, userB], payments := [payAdv], campaigns := [],
    analytics := [] }

/-- A currently active fixed-amount discount campaign of 100 ETB whose use
cap is already exhausted (used_count = max_uses = 1) and whose start time
2000 lies in the future relative to the verification time 1000 used below. -/
def bigFixedOff : CampaignRow :=
  { id := 5, code := "BIGOFF", ctype := "discount", discount_percent := none,
    discount_amount := some 100, max_uses := some 1, used_count := 1,
    starts_at := some 2000, expires_at := some 5000, is_active := true }

/-- Pending 50 ETB payment of user 2 carrying the BIGOFF campaign code. -/
def payFifty : PaymentRow :=
  { payAdv with id := 11, amount := 50, campaign_id := some "BIGOFF" }

/-- Scenario for the discount claims: 50 ETB intent with a 100 ETB
fixed-amount discount campaign attached. -/
def dbFixedOff : DB :=
  { dbRef with payments := [payFifty], campaigns := [bigFixedOff] }

/-- C1 counterexample: verifying a 50 ETB intent under a 100 ETB
fixed-amount discount returns final amount -50, a negative value, while
the claimed formula max(0, amount - discount) gives 0.  The code
(src/bot.py lines 790 to 795) subtracts the discount without any clamp. -/
theorem C1_counterexample :
    (verify_payment_v2 2 99 none none 1000 dbFixedOff).2 =
      VerifyResult.success "advanced" "advanced" (-50) ∧
    ((-50 : ℚ) < 0) ∧ max (0 : ℚ) (50 - 100) = 0 := by
  refine ⟨?_, by norm_num, by norm_num⟩
  norm_num [verify_payment_v2, dbFixedOff, dbRef, payFifty, payAdv, userA, userB,
    bigFixedOff, latestPendingFor, findActiveCampaign, apply_campaign_discount,
    resolve_amount, resolve_plan, findUser, List.filter, List.find?,
    show ¬("BIGOFF" : String) = "" by decide]

/-- C1 amended: for a campaign of type discount with a NULL or zero
discount_percent and a nonzero fixed discount_amount d, the verification
workflow computes final_amount = amount - d with no clamp at zero, so the
final amount is negative whenever d exceeds the intent amount. -/
theorem C1_amended (amount d : ℚ) (c : CampaignRow)
    (hty : c.ctype = "discount") (hp : c.discount_percent = none)
    (ha : c.discount_amount = some d) (hd : d ≠ 0) :
    apply_campaign_discount amount c = amount - d := by
  simp [apply_campaign_discount, hty, hp, ha, hd]

/-- Witness for C1 amended at the concrete scenario campaign: a 100 ETB
fixed discount on a 50 ETB amount yields 50 - 100. -/
theorem C1_amended_witness :
    apply_campaign_discount 50 bigFixedOff = 50 - 100 :=
  C1_amended 50 100 bigFixedOff rfl rfl rfl (by norm_num)

/-- Referral scenario with the referrer on the advanced tier. -/
def userAAdv : UserRow := { userA with tier := "advanced", plan := "advanced" }

/-- Database for the C2 scenario: advanced-tier referrer, referred user with
a pending 149 ETB advanced intent. -/
def dbAdvRef : DB := { dbRef with users := [userAAdv, userB] }

/-- C2 counterexample: after verifying the 149 ETB advanced intent of the
referred user, the advanced-tier referrer is credited 149 * 0.10 = 14.9
(src/bot.py line 853 hardcodes 10 percent), not
149 * advanced commission_rate percent = 17.88 as the tier catalog
(TIERS, commission_rate 12 for advanced) would demand. -/
theorem C2_counterexample :
    userBalance 1 (verifyFinal 2 99 none none 1000 dbAdvRef) = some (149 / 10) ∧
    (TIERS "advanced").map TierInfo.commission_rate = some 12 ∧
    ¬ ((149 : ℚ) / 10 = 149 * (12 / 100)) := by
  refine ⟨?_, rfl, by norm_num⟩
  norm_num [userBalance, findUser, verifyFinal, verify_payment_v2, dbAdvRef,
    dbRef, userAAdv, userA, userB, payAdv, latestPendingFor, resolve_amount,
    resolve_plan, List.filter, List.find?, List.getLastD]

/-- Parametric referral scenario: referrer tier t, wallet balance b, total
earned e; the referred user has one pending advanced intent of amount a. -/
def dbRefGen (t : String) (b e a : ℚ) : DB :=
  { users := [{ userA with tier := t, balance := b, total_earned := e }, userB],
    payments := [{ payAdv with amount := a }], campaigns := [], analytics := [] }

/-- C2 amended: for every referrer tier and every intent amount a, verify
credits the referrer balance and total_earned by a flat a * 0.10; the tier
catalog commission_rate (12 for advanced, 15 for pro) is never consulted. -/
theorem C2_amended (t : String) (b e a : ℚ) :
    userBalance 1 (verifyFinal 2 99 none none 1000 (dbRefGen t b e a)) =
      some (b + a * (1 / 10)) ∧
    userEarned 1 (verifyFinal 2 99 none none 1000 (dbRefGen t b e a)) =
      some (e + a * (1 / 10)) := by
  constructor <;> rfl

/-- The crash model for C3: the state after only the first committed
statement of a verify call on the base referral scenario.  The source
commits each statement separately (execute_query, src/bot.py lines 347 to
377, opens a fresh connection and commits per call), and the first
statement of this call is the payment UPDATE of src/bot.py lines 803 to
811; the user UPDATE of lines 823 to 834 has not run yet. -/
def dbCrash : DB :=
  afterCommits dbRef (verify_payment_v2 2 99 none none 1000 dbRef).1 1

/-- C3 counterexample: a failure after the first committed statement of
verify leaves the intent marked verified while the account tier change,
expiry stamp and referral payout never happened — the effects of steps 2
to 5 are not atomic. -/
theorem C3_counterexample :
    paymentStatus 10 dbCrash = some "verified" ∧
    userTier 2 dbCrash = some "basic" ∧
    userExpiry 2 dbCrash = some none ∧
    userBalance 1 dbCrash = some 0 := by decide

/-- C3 amended: verify commits statement by statement, so a crash between
the payment UPDATE and the user UPDATE persists the verified status with
the account unchanged; a retry then finds no pending payment, fails, and
changes nothing — the referrer is never paid for the verified intent
rather than being paid twice. -/
theorem C3_amended :
    paymentStatus 10 dbCrash = some "verified" ∧
    userTier 2 dbCrash = some "basic" ∧
    verify_payment_v2 2 99 none none 2000 dbCrash =
      ([], VerifyResult.failure "No pending payment found") ∧
    userBalance 1 (verifyFinal 2 99 none none 2000 dbCrash) = some 0 := by decide

/-- State after a completed first verification of the base referral
scenario. -/
def dbAfterFirst : DB := verifyFinal 2 99 none none 1000 dbRef

/-- C4 counterexample: the second verify call against the same intent does
fail, but with the NoPendingPayment message of src/bot.py line 774, not
with an InvalidState error — the source has no InvalidState failure at
all. -/
theorem C4_counterexample :
    (verify_payment_v2 2 99 none none 2000 dbAfterFirst).2 =
      VerifyResult.failure "No pending payment found" ∧
    "No pending payment found" ≠ "InvalidState" := by decide

/-- C4 amended: the referral payout happens at most once per intent: the
first verify pays the referrer 149 * 0.10, the second call returns the
NoPendingPayment failure with an empty commit trace (so the state,
including the referrer balance, is unchanged), and the verified intent is
not transitioned by the expiry sweep either. -/
theorem C4_amended :
    userBalance 1 dbAfterFirst = some (149 / 10) ∧
    verify_payment_v2 2 99 none none 2000 dbAfterFirst =
      ([], VerifyResult.failure "No pending payment found") ∧
    userBalance 1 (verifyFinal 2 99 none none 2000 dbAfterFirst) =
      some (149 / 10) ∧
    paymentStatus 10 (expire_sweep 999999 dbAfterFirst) = some "verified" := by
  have hbal : userBalance 1 dbAfterFirst = some (149 / 10) := by
    norm_num [userBalance, findUser, verifyFinal, verify_payment_v2,
      dbAfterFirst, dbRef, userA, userB, payAdv, latestPendingFor,
      resolve_amount, resolve_plan, List.filter, List.find?, List.getLastD]
  have hsecond : verify_payment_v2 2 99 none none 2000 dbAfterFirst =
      ([], VerifyResult.failure "No pending payment found") := by decide
  refine ⟨hbal, hsecond, ?_, by decide⟩
  show userBalance 1
      ((verify_payment_v2 2 99 none none 2000 dbAfterFirst).1.getLastD dbAfterFirst) = _
  rw [hsecond]
  exact hbal

/-- User whose paid tier has lapsed: stored tier pro with
tier_expires_at = 500 and last_payment = 100, read long afterwards. -/
def userLapsed : UserRow :=
  { userA with
    tier := "pro", plan := "pro", tier_expires_at := some 500,
    last_payment := some 100 }

/-- Database holding only the lapsed user. -/
def dbLapsed : DB :=
  { users := [userLapsed], payments := [], campaigns := [], analytics := [] }

/-- C5 counterexample: at now = 99999999, far past the stored
tier_expires_at of 500, get_user_tier still returns the stored tier pro
and get_plan still returns the stored plan pro — neither read path
reverts to basic.  tier_expires_at is written by verify (src/bot.py line
827) but read by no query in the source. -/
theorem C5_counterexample :
    get_user_tier 1 dbLapsed = "pro" ∧
    get_plan 1 99999999 dbLapsed = "pro" ∧
    userExpiry 1 dbLapsed = some (some 500) ∧
    ((500 : Int) < 99999999) ∧ "pro" ≠ "basic" := by decide

/-- C5 amended: no read path applies the expiry check.  For every state
and every user row, get_user_tier returns the stored tier column
unconditionally, and get_plan returns the stored plan (or basic when the
plan column is empty) for every value of now — its two branches around the
30-day last_payment test return the same expression, and neither consults
tier_expires_at. -/
theorem C5_amended (uid now : Int) (s : DB) (u : UserRow)
    (h : findUser uid s = some u) :
    get_user_tier uid s = u.tier ∧
    get_plan uid now s = (if u.plan == "" then "basic" else u.plan) := by
  refine ⟨?_, ?_⟩
  · simp [get_user_tier, h]
  · simp only [get_plan, h]
    cases u.last_payment <;> simp

/-- Witness for C5 amended at the lapsed-user scenario. -/
theorem C5_amended_witness :
    get_user_tier 1 dbLapsed = "pro" ∧ get_plan 1 99999999 dbLapsed = "pro" :=
  C5_amended 1 99999999 dbLapsed userLapsed (by decide)

/-- Basic-tier user sitting exactly at the basic monthly transaction cap
of 10. -/
def userAtCap : UserRow := { userA with monthly_transactions := 10 }

/-- Database holding only the capped user. -/
def dbAtCap : DB :=
  { users := [userAtCap], payments := [], campaigns := [], analytics := [] }

/-- C6 counterexample: with the counter already equal to the basic-tier
maximum of 10, check_limit does reject, but the increment operation
(TierSystem.increment_counter, src/bot.py lines 557 to 569) performs no
check at all and drives the counter to 11, past the tier maximum. -/
theorem C6_counterexample :
    tier_limits "basic" = some ⟨10, 5⟩ ∧
    check_limit 1 "payment" dbAtCap =
      some { allowed := false,
             reason := some "Monthly transaction limit reached (10/10)",
             upgrade := some "advanced" } ∧
    userTransactions 1 (increment_counter 1 "payment" dbAtCap) = some 11 ∧
    ¬ ((11 : Int) ≤ 10) := by decide

/-- Database holding a single arbitrary user row. -/
def singleUserDB (u : UserRow) : DB :=
  { users := [u], payments := [], campaigns := [], analytics := [] }

/-- C6 amended: for every basic-tier account whose monthly transaction
counter is at or past the configured maximum of 10, check_limit (a pure
SELECT, which mutates nothing) reports the action as not allowed; but the
increment operation itself is unconditional: increment_counter always adds
one to the counter, so nothing in the increment path keeps the counter at
or below the tier maximum.  (In the source, check_limit is only called by
the payment-button handler, and increment_counter is never called at
all.) -/
theorem C6_amended (u : UserRow) (htier : u.tier = "basic")
    (hcnt : u.monthly_transactions ≥ 10) :
    (check_limit u.user_id "payment" (singleUserDB u)).map LimitCheck.allowed =
      some false ∧
    userTransactions u.user_id
        (increment_counter u.user_id "payment" (singleUserDB u)) =
      some (u.monthly_transactions + 1) := by
  constructor
  · simp [check_limit, findUser, singleUserDB, htier, tier_limits, hcnt]
  · simp [userTransactions, findUser, increment_counter, singleUserDB]

/-- Witness for C6 amended at the capped-user scenario. -/
theorem C6_amended_witness :
    (check_limit userAtCap.user_id "payment" (singleUserDB userAtCap)).map
        LimitCheck.allowed = some false ∧
    userTransactions userAtCap.user_id
        (increment_counter userAtCap.user_id "payment" (singleUserDB userAtCap)) =
      some (userAtCap.monthly_transactions + 1) :=
  C6_amended userAtCap rfl (by decide)

/-- C7 counterexample: the campaign of dbFixedOff has used_count already
equal to its max_uses of 1 and a starts_at of 2000 in the future of the
verification time 1000, yet verify still applies its discount (final
amount -50) and increments used_count to 2 > max_uses: the lookup
(src/bot.py lines 784 to 788) checks only code, is_active and expires_at,
and the increment (lines 798 to 800) is unconditional. -/
theorem C7_counterexample :
    campaignUses 5 (verifyFinal 2 99 none none 1000 dbFixedOff) = some 2 ∧
    (findCampaignById 5 dbFixedOff).map CampaignRow.max_uses = some (some 1) ∧
    ¬ ((2 : Int) ≤ 1) ∧
    (findCampaignById 5 dbFixedOff).map CampaignRow.starts_at =
      some (some 2000) ∧
    ((1000 : Int) < 2000) ∧
    resultAmount (verify_payment_v2 2 99 none none 1000 dbFixedOff).2 =
      some (-50) := by
  refine ⟨by decide, by decide, by decide, by decide, by decide, ?_⟩
  norm_num [resultAmount, verify_payment_v2, dbFixedOff, dbRef, payFifty,
    payAdv, userA, userB, bigFixedOff, latestPendingFor, findActiveCampaign,
    apply_campaign_discount, resolve_amount, resolve_plan, findUser,
    List.filter, List.find?, show ¬("BIGOFF" : String) = "" by decide]

/-- The dbFixedOff campaign with arbitrary used_count, max_uses and
starts_at. -/
def campFixedGen (n : Int) (m st : Option Int) : CampaignRow :=
  { bigFixedOff with used_count := n, max_uses := m, starts_at := st }

/-- The dbFixedOff scenario over campFixedGen. -/
def dbFixedGen (n : Int) (m st : Option Int) : DB :=
  { dbRef with payments := [payFifty], campaigns := [campFixedGen n m st] }

/-- C7 amended: for every used_count, max_uses and starts_at of an active,
unexpired campaign, verify applies the discount and increments used_count
by one: neither the use cap nor the start of the active window is checked,
so used_count is not bounded by max_uses. -/
theorem C7_amended (n : Int) (m st : Option Int) :
    campaignUses 5 (verifyFinal 2 99 none none 1000 (dbFixedGen n m st)) =
      some (n + 1) ∧
    resultAmount (verify_payment_v2 2 99 none none 1000 (dbFixedGen n m st)).2 =
      some (-50) := by
  refine ⟨rfl, ?_⟩
  norm_num [resultAmount, verify_payment_v2, dbFixedGen, dbRef, payFifty,
    payAdv, userA, userB, campFixedGen, bigFixedOff, latestPendingFor,
    findActiveCampaign, apply_campaign_discount, resolve_amount,
    resolve_plan, findUser, List.filter, List.find?,
    show ¬("BIGOFF" : String) = "" by decide]

/-- Pending payment of user 2 whose recorded plan is basic. -/
def payBasicPlan : PaymentRow := { payAdv with id := 12, plan := "basic" }

/-- Scenario for C8: a pending basic-plan intent. -/
def dbBasicIntent : DB := { dbRef with payments := [payBasicPlan] }

/-- C8 counterexample: verifying a basic-plan intent leaves the account
with tier = basic AND tier_expires_at set to now + 30 days, because the
user UPDATE of verify (src/bot.py lines 823 to 834) writes tier_expires_at
unconditionally while new_tier falls through to basic — breaking the
invariant that tier_expires_at is set iff tier is not basic. -/
theorem C8_counterexample :
    userTier 2 (verifyFinal 2 99 none none 1000 dbBasicIntent) =
      some "basic" ∧
    userExpiry 2 (verifyFinal 2 99 none none 1000 dbBasicIntent) =
      some (some (1000 + 30 * 86400)) := by decide

/-- The empty database. -/
def emptyDB : DB := { users := [], payments := [], campaigns := [], analytics := [] }

/-- The referral scenario with the recorded plan of the pending intent
left arbitrary. -/
def dbIntentGen (p : String) : DB :=
  { dbRef with payments := [{ payAdv with plan := p }] }

/-- C8 amended: account creation establishes the invariant (tier basic,
tier_expires_at NULL), but verify sets tier_expires_at = now + 30 days for
every resolved plan whatsoever, so the invariant survives verification
only when the plan is advanced or pro; a basic-plan verification (see the
counterexample) leaves tier = basic with an expiry set. -/
theorem C8_amended (p : String) :
    userTier 3 (create_or_update_user_v2 3 "SHEGERX" 1000 emptyDB) =
      some "basic" ∧
    userExpiry 3 (create_or_update_user_v2 3 "SHEGERX" 1000 emptyDB) =
      some none ∧
    userExpiry 2 (verifyFinal 2 99 none none 1000 (dbIntentGen p)) =
      some (some (1000 + 30 * 86400)) := by
  refine ⟨by decide, by decide, ?_⟩
  rfl

/-- First pending intent of the stale-pending scenario: advanced tier,
created at t1, expiring at e1. -/
def payFirstOf (uid t1 e1 : Int) (a1 : ℚ) : PaymentRow :=
  { id := 1, user_id := uid, plan := "advanced", amount := a1,
    status := "pending", reference_code := "ADVANCED", verified_by := none,
    created_at := t1, verified_at := none, expires_at := some e1,
    campaign_id := none }

/-- Second pending intent of the stale-pending scenario: pro tier, created
at t2, expiring at e2. -/
def paySecondOf (uid t2 e2 : Int) (a2 : ℚ) : PaymentRow :=
  { id := 2, user_id := uid, plan := "pro", amount := a2,
    status := "pending", reference_code := "PRO", verified_by := none,
    created_at := t2, verified_at := none, expires_at := some e2,
    campaign_id := none }

/-- A user row with the given id and no referrer. -/
def userOf (uid : Int) : UserRow := { userA with user_id := uid }

/-- Stale-pending scenario: one user with two pending intents for
different tiers. -/
def dbTwoPending (uid t1 t2 e1 e2 : Int) (a1 a2 : ℚ) : DB :=
  { users := [userOf uid],
    payments := [payFirstOf uid t1 e1 a1, paySecondOf uid t2 e2 a2],
    campaigns := [], analytics := [] }

/-- C9: for every user with two pending intents created in sequence
(t1 < t2), the latest-pending lookup returns only the second intent,
verify marks the second intent verified while the first stays pending,
and the expiry sweep run after the expiry of the first (e1 < now2)
transitions the first to expired while leaving the verified second intent
alone. -/
theorem C9 (uid t1 t2 e1 e2 now now2 : Int) (a1 a2 : ℚ)
    (h12 : t1 < t2) (hsw : e1 < now2) :
    latestPendingFor uid (dbTwoPending uid t1 t2 e1 e2 a1 a2).payments =
      some (paySecondOf uid t2 e2 a2) ∧
    paymentStatus 2
        (verifyFinal uid 99 none none now (dbTwoPending uid t1 t2 e1 e2 a1 a2)) =
      some "verified" ∧
    paymentStatus 1
        (verifyFinal uid 99 none none now (dbTwoPending uid t1 t2 e1 e2 a1 a2)) =
      some "pending" ∧
    paymentStatus 1 (expire_sweep now2
        (verifyFinal uid 99 none none now (dbTwoPending uid t1 t2 e1 e2 a1 a2))) =
      some "expired" ∧
    paymentStatus 2 (expire_sweep now2
        (verifyFinal uid 99 none none now (dbTwoPending uid t1 t2 e1 e2 a1 a2))) =
      some "verified" := by
  simp [latestPendingFor, dbTwoPending, payFirstOf, paySecondOf, userOf,
    userA, verifyFinal, verify_payment_v2, resolve_amount, resolve_plan,
    findUser, findPayment, paymentStatus, expire_sweep, List.filter,
    List.find?, List.getLastD, h12, hsw]

/-- Witness for C9 at concrete times and amounts. -/
theorem C9_witness :
    latestPendingFor 7 (dbTwoPending 7 100 200 86500 86600 149 999).payments =
      some (paySecondOf 7 200 86600 999) ∧
    paymentStatus 2
        (verifyFinal 7 99 none none 1000 (dbTwoPending 7 100 200 86500 86600 149 999)) =
      some "verified" ∧
    paymentStatus 1
        (verifyFinal 7 99 none none 1000 (dbTwoPending 7 100 200 86500 86600 149 999)) =
      some "pending" ∧
    paymentStatus 1 (expire_sweep 90000
        (verifyFinal 7 99 none none 1000 (dbTwoPending 7 100 200 86500 86600 149 999))) =
      some "expired" ∧
    paymentStatus 2 (expire_sweep 90000
        (verifyFinal 7 99 none none 1000 (dbTwoPending 7 100 200 86500 86600 149 999))) =
      some "verified" :=
  C9 7 100 200 86500 86600 1000 90000 149 999 (by decide) (by decide)

/-- Pending intent of user 1 with arbitrary recorded amount and plan, used
for the override-truthiness claim. -/
def dbPendingGen (a : ℚ) (p : String) : DB :=
  { users := [userA],
    payments := [{ payAdv with user_id := 1, amount := a, plan := p }],
    campaigns := [], analytics := [] }

/-- C10: a verify call with override amount 0 and override plan the empty
string silently ignores both overrides: the result and the updated payment
row carry the originally recorded amount and plan, because the source
(src/bot.py lines 777 to 778) selects the override by Python truthiness
(x or fallback), under which 0 and the empty string are false — a 0 ETB
override can never be applied. -/
theorem C10 (a : ℚ) (p : String) :
    resultPlan (verify_payment_v2 1 99 (some 0) (some "") 1000 (dbPendingGen a p)).2 =
      some p ∧
    resultAmount (verify_payment_v2 1 99 (some 0) (some "") 1000 (dbPendingGen a p)).2 =
      some a ∧
    paymentAmount 10 (verifyFinal 1 99 (some 0) (some "") 1000 (dbPendingGen a p)) =
      some a ∧
    (findPayment 10 (verifyFinal 1 99 (some 0) (some "") 1000 (dbPendingGen a p))).map
        PaymentRow.plan = some p := by
  refine ⟨rfl, rfl, rfl, rfl⟩
